import Mathlib

/-!
Shallow embedding of the metabolic calculator of the GLYXFITNESS repository
(`calculateStats` in `src/App.tsx`, together with the enums and records of
`src/types.ts`).  JavaScript numbers are modelled as exact rationals; the
constants `6.25`, `1.2`, `1.375`, `1.55`, `1.725`, `1.9`, `0.10`, `0.20`,
`0.30` of the source are all decimal fractions, so rational arithmetic
reproduces the intended real-number semantics of the formula.
`Math.round x` is `⌊x + 1/2⌋` (JavaScript rounds halves towards +∞) and
`Math.ceil` is the integer ceiling.  The JavaScript expression
`weeklyDeficit || 1` yields `1` exactly when `weeklyDeficit` is zero and
`weeklyDeficit` itself otherwise, which is how it is embedded below.
-/

/-- `Gender` enum from `src/types.ts`. -/
inductive Gender where
  | MALE
  | FEMALE

/-- `ActivityLevel` enum from `src/types.ts` (five ordered tiers). -/
inductive ActivityLevel where
  | SEDENTARY
  | LIGHTLY_ACTIVE
  | MODERATELY_ACTIVE
  | VERY_ACTIVE
  | EXTRA_ACTIVE

/-- `DeficitLevel` enum from `src/types.ts`. -/
inductive DeficitLevel where
  | LIGHT
  | MODERATE
  | AGGRESSIVE

/-- The fields of `UserData` (`src/types.ts`) read by `calculateStats`.
The remaining fields (`name`, `email`, `availableFoods`, `workoutDays`,
`workoutDuration`, `targetMuscles`) are never read by the calculator and
are omitted from the embedding. -/
structure UserData where
  age : ℚ
  weight : ℚ
  height : ℚ
  gender : Gender
  activityLevel : ActivityLevel
  targetWeightLoss : ℚ

/-- `CalculatedStats` from `src/types.ts`: four JavaScript numbers. -/
structure CalculatedStats where
  bmr : ℚ
  tdee : ℚ
  targetCalories : ℚ
  weeksToGoal : ℚ

/-- JavaScript `Math.round`: nearest integer, halves towards +∞. -/
def jsRound (x : ℚ) : ℤ := ⌊x + 1 / 2⌋

/-- JavaScript `Math.ceil`. -/
def jsCeil (x : ℚ) : ℤ := ⌈x⌉

/-- The unrounded Mifflin-St Jeor BMR computed in `calculateStats`
(`src/App.tsx` lines 42-48): `(10 * weight) + (6.25 * height) - (5 * age)`,
then `+ 5` for males and `- 161` for females. -/
def rawBmr (user : UserData) : ℚ :=
  let base : ℚ := 10 * user.weight + 6.25 * user.height - 5 * user.age
  match user.gender with
  | Gender.MALE => base + 5
  | Gender.FEMALE => base - 161

/-- The activity multiplier switch of `calculateStats`
(`src/App.tsx` lines 50-57). -/
def activityMultiplier : ActivityLevel → ℚ
  | ActivityLevel.SEDENTARY => 1.2
  | ActivityLevel.LIGHTLY_ACTIVE => 1.375
  | ActivityLevel.MODERATELY_ACTIVE => 1.55
  | ActivityLevel.VERY_ACTIVE => 1.725
  | ActivityLevel.EXTRA_ACTIVE => 1.9

/-- The deficit percentage switch of `calculateStats`
(`src/App.tsx` lines 61-74): light 10%, moderate 20%, aggressive 30%. -/
def deficitPercentage : DeficitLevel → ℚ
  | DeficitLevel.LIGHT => 0.10
  | DeficitLevel.MODERATE => 0.20
  | DeficitLevel.AGGRESSIVE => 0.30

/-- The position of an activity tier in the ordered five-tier table,
used to state monotonicity in the tier. -/
def activityRank : ActivityLevel → ℕ
  | ActivityLevel.SEDENTARY => 0
  | ActivityLevel.LIGHTLY_ACTIVE => 1
  | ActivityLevel.MODERATELY_ACTIVE => 2
  | ActivityLevel.VERY_ACTIVE => 3
  | ActivityLevel.EXTRA_ACTIVE => 4

/-- `calculateStats` from `src/App.tsx` (lines 40-86).
`tdee = Math.round(bmr * activityMultiplier)` uses the unrounded `bmr`;
`targetCalories = Math.round(tdee * (1 - deficitPercentage))`;
`weeklyDeficit = (tdee - targetCalories) * 7`;
`weeksToGoal = targetWeightLoss > 0
   ? Math.ceil((targetWeightLoss * 7700) / (weeklyDeficit || 1)) : 0`;
the returned record rounds `bmr`. -/
def calculateStats (user : UserData)
    (deficitLevel : DeficitLevel := DeficitLevel.MODERATE) : CalculatedStats :=
  let bmr : ℚ := rawBmr user
  let tdee : ℚ := (jsRound (bmr * activityMultiplier user.activityLevel) : ℤ)
  let targetCalories : ℚ :=
    (jsRound (tdee * (1 - deficitPercentage deficitLevel)) : ℤ)
  let weeklyDeficit : ℚ := (tdee - targetCalories) * 7
  let weeksToGoal : ℚ :=
    if user.targetWeightLoss > 0 then
      (jsCeil ((user.targetWeightLoss * 7700) /
        (if weeklyDeficit = 0 then 1 else weeklyDeficit)) : ℤ)
    else 0
  { bmr := (jsRound bmr : ℤ), tdee := tdee,
    targetCalories := targetCalories, weeksToGoal := weeksToGoal }

/-- The profile of spec scenarios 1 and 3: male, age 30, weight 90 kg,
height 175 cm, sedentary, target weight loss 10 kg. -/
def scenarioUser : UserData :=
  { age := 30, weight := 90, height := 175, gender := Gender.MALE,
    activityLevel := ActivityLevel.SEDENTARY, targetWeightLoss := 10 }

/-- A degenerate but positive profile (female, 1 kg, 1 cm, age 30): its
BMR is negative, which exercises the sign-related edge cases of the
calculator. -/
def degenUser : UserData :=
  { age := 30, weight := 1, height := 1, gender := Gender.FEMALE,
    activityLevel := ActivityLevel.SEDENTARY, targetWeightLoss := 10 }

/-- A positive profile whose unrounded BMR is exactly 0
(female: 10*1 + 6.25*24.96 - 5*1 - 161 = 0). -/
def zeroBmrUser : UserData :=
  { age := 1, weight := 1, height := 24.96, gender := Gender.FEMALE,
    activityLevel := ActivityLevel.SEDENTARY, targetWeightLoss := 0 }

/-- A profile whose unrounded BMR is 1867.5, so that rounding BMR before
the TDEE multiplication changes the result. -/
def roundingUser : UserData :=
  { age := 30, weight := 90, height := 178, gender := Gender.MALE,
    activityLevel := ActivityLevel.SEDENTARY, targetWeightLoss := 10 }

/-- The scenario profile with target weight loss 0. -/
def zeroLossUser : UserData :=
  { scenarioUser with targetWeightLoss := 0 }

/-- The scenario profile with a negative target weight loss. -/
def negLossUser : UserData :=
  { scenarioUser with targetWeightLoss := -5 }

/- Helper lemmas. -/

lemma jsRound_eq (x : ℚ) (n : ℤ) (h1 : (n : ℚ) ≤ x + 1 / 2)
    (h2 : x + 1 / 2 < (n : ℚ) + 1) : jsRound x = n := by
  unfold jsRound
  rw [Int.floor_eq_iff]
  exact ⟨h1, by exact_mod_cast h2⟩

lemma jsCeil_eq (x : ℚ) (n : ℤ) (h1 : (n : ℚ) - 1 < x)
    (h2 : x ≤ (n : ℚ)) : jsCeil x = n := by
  unfold jsCeil
  rw [Int.ceil_eq_iff]
  constructor
  · exact_mod_cast h1
  · exact h2

lemma jsRound_le (x y : ℚ) (h : x ≤ y) : jsRound x ≤ jsRound y := by
  unfold jsRound
  exact Int.floor_mono (by linarith)

lemma jsRound_lt (x y : ℚ) (h : x + 1 ≤ y) : jsRound x < jsRound y := by
  unfold jsRound
  have h2 : ⌊x + 1 / 2⌋ + 1 ≤ ⌊y + 1 / 2⌋ := by
    calc ⌊x + 1 / 2⌋ + 1 = ⌊x + 1 / 2 + 1⌋ := (Int.floor_add_one _).symm
    _ ≤ ⌊y + 1 / 2⌋ := Int.floor_mono (by linarith)
  omega

/-- The gender adjustment of the Mifflin-St Jeor formula, isolated so that
`rawBmr` can be rewritten into a purely arithmetic form. -/
def genderAdjust : Gender → ℚ
  | Gender.MALE => 5
  | Gender.FEMALE => -161

lemma rawBmr_eq (u : UserData) :
    rawBmr u = 10 * u.weight + 6.25 * u.height - 5 * u.age
      + genderAdjust u.gender := by
  obtain ⟨a, w, h, g, act, L⟩ := u
  cases g <;> simp [rawBmr, genderAdjust] <;> ring

/- Field projection lemmas for `calculateStats`, all definitional. -/

lemma calculateStats_bmr (u : UserData) (dl : DeficitLevel) :
    (calculateStats u dl).bmr = ((jsRound (rawBmr u) : ℤ) : ℚ) := rfl

lemma calculateStats_tdee (u : UserData) (dl : DeficitLevel) :
    (calculateStats u dl).tdee
      = ((jsRound (rawBmr u * activityMultiplier u.activityLevel) : ℤ) : ℚ) := rfl

lemma calculateStats_targetCalories (u : UserData) (dl : DeficitLevel) :
    (calculateStats u dl).targetCalories
      = ((jsRound ((calculateStats u dl).tdee * (1 - deficitPercentage dl)) : ℤ) : ℚ) := rfl

lemma calculateStats_weeksToGoal (u : UserData) (dl : DeficitLevel) :
    (calculateStats u dl).weeksToGoal
      = if u.targetWeightLoss > 0 then
          ((jsCeil ((u.targetWeightLoss * 7700) /
            (if ((calculateStats u dl).tdee - (calculateStats u dl).targetCalories) * 7 = 0
             then 1
             else ((calculateStats u dl).tdee - (calculateStats u dl).targetCalories) * 7)) : ℤ) : ℚ)
        else 0 := rfl

/- Concrete evaluation lemmas. -/

lemma bmr_eval (u : UserData) (dl : DeficitLevel) (r : ℚ) (b : ℤ)
    (hr : rawBmr u = r) (h1 : (b : ℚ) ≤ r + 1 / 2) (h2 : r + 1 / 2 < (b : ℚ) + 1) :
    (calculateStats u dl).bmr = (b : ℚ) := by
  rw [calculateStats_bmr, hr, jsRound_eq r b h1 h2]

lemma tdee_eval (u : UserData) (dl : DeficitLevel) (r : ℚ) (t : ℤ)
    (hr : rawBmr u * activityMultiplier u.activityLevel = r)
    (h1 : (t : ℚ) ≤ r + 1 / 2) (h2 : r + 1 / 2 < (t : ℚ) + 1) :
    (calculateStats u dl).tdee = (t : ℚ) := by
  rw [calculateStats_tdee, hr, jsRound_eq r t h1 h2]

lemma target_eval (u : UserData) (dl : DeficitLevel) (t : ℚ) (c : ℤ)
    (ht : (calculateStats u dl).tdee = t)
    (h1 : (c : ℚ) ≤ t * (1 - deficitPercentage dl) + 1 / 2)
    (h2 : t * (1 - deficitPercentage dl) + 1 / 2 < (c : ℚ) + 1) :
    (calculateStats u dl).targetCalories = (c : ℚ) := by
  rw [calculateStats_targetCalories, ht, jsRound_eq _ c h1 h2]

lemma weeks_eval (u : UserData) (dl : DeficitLevel) (t c : ℚ) (g : ℤ)
    (hL : 0 < u.targetWeightLoss)
    (ht : (calculateStats u dl).tdee = t)
    (hc : (calculateStats u dl).targetCalories = c)
    (hne : ¬ (t - c) * 7 = 0)
    (h1 : (g : ℚ) - 1 < u.targetWeightLoss * 7700 / ((t - c) * 7))
    (h2 : u.targetWeightLoss * 7700 / ((t - c) * 7) ≤ (g : ℚ)) :
    (calculateStats u dl).weeksToGoal = (g : ℚ) := by
  rw [calculateStats_weeksToGoal, if_pos hL, ht, hc, if_neg hne,
    jsCeil_eq _ g h1 h2]

/- Evaluations at the scenario profile. -/

lemma scenario_tdee (dl : DeficitLevel) :
    (calculateStats scenarioUser dl).tdee = 2219 := by
  exact_mod_cast tdee_eval scenarioUser dl 2218.5 2219
    (by norm_num [rawBmr, scenarioUser, activityMultiplier])
    (by norm_num) (by norm_num)

lemma scenario_bmr (dl : DeficitLevel) :
    (calculateStats scenarioUser dl).bmr = 1849 := by
  exact_mod_cast bmr_eval scenarioUser dl 1848.75 1849
    (by norm_num [rawBmr, scenarioUser]) (by norm_num) (by norm_num)

lemma scenario_target_mod :
    (calculateStats scenarioUser DeficitLevel.MODERATE).targetCalories = 1775 := by
  exact_mod_cast target_eval scenarioUser DeficitLevel.MODERATE 2219 1775
    (scenario_tdee _) (by norm_num [deficitPercentage]) (by norm_num [deficitPercentage])

lemma scenario_target_agg :
    (calculateStats scenarioUser DeficitLevel.AGGRESSIVE).targetCalories = 1553 := by
  exact_mod_cast target_eval scenarioUser DeficitLevel.AGGRESSIVE 2219 1553
    (scenario_tdee _) (by norm_num [deficitPercentage]) (by norm_num [deficitPercentage])

lemma scenario_weeks_agg :
    (calculateStats scenarioUser DeficitLevel.AGGRESSIVE).weeksToGoal = 17 := by
  exact_mod_cast weeks_eval scenarioUser DeficitLevel.AGGRESSIVE 2219 1553 17
    (by norm_num [scenarioUser]) (scenario_tdee _) scenario_target_agg
    (by norm_num) (by norm_num [scenarioUser]) (by norm_num [scenarioUser])

/- Evaluations at the degenerate profile, light deficit. -/

lemma degen_tdee :
    (calculateStats degenUser DeficitLevel.LIGHT).tdee = -354 := by
  exact_mod_cast tdee_eval degenUser DeficitLevel.LIGHT (-353.7) (-354)
    (by norm_num [rawBmr, degenUser, activityMultiplier])
    (by norm_num) (by norm_num)

lemma degen_target :
    (calculateStats degenUser DeficitLevel.LIGHT).targetCalories = -319 := by
  exact_mod_cast target_eval degenUser DeficitLevel.LIGHT (-354) (-319)
    (by exact_mod_cast degen_tdee)
    (by norm_num [deficitPercentage]) (by norm_num [deficitPercentage])

lemma degen_weeks :
    (calculateStats degenUser DeficitLevel.LIGHT).weeksToGoal = -314 := by
  exact_mod_cast weeks_eval degenUser DeficitLevel.LIGHT (-354) (-319) (-314)
    (by norm_num [degenUser])
    (by exact_mod_cast degen_tdee) (by exact_mod_cast degen_target)
    (by norm_num) (by norm_num [degenUser]) (by norm_num [degenUser])

/- Evaluations at the zero-BMR profile. -/

lemma zeroBmr_tdee_sed :
    (calculateStats zeroBmrUser DeficitLevel.MODERATE).tdee = 0 := by
  exact_mod_cast tdee_eval zeroBmrUser DeficitLevel.MODERATE 0 0
    (by norm_num [rawBmr, zeroBmrUser, activityMultiplier])
    (by norm_num) (by norm_num)

lemma zeroBmr_tdee_light :
    (calculateStats { zeroBmrUser with activityLevel := ActivityLevel.LIGHTLY_ACTIVE }
      DeficitLevel.MODERATE).tdee = 0 := by
  exact_mod_cast tdee_eval _ DeficitLevel.MODERATE 0 0
    (by norm_num [rawBmr, zeroBmrUser, activityMultiplier])
    (by norm_num) (by norm_num)

/- Evaluations at the BMR-rounding profile. -/

lemma rounding_tdee :
    (calculateStats roundingUser DeficitLevel.MODERATE).tdee = 2241 := by
  exact_mod_cast tdee_eval roundingUser DeficitLevel.MODERATE 2241 2241
    (by norm_num [rawBmr, roundingUser, activityMultiplier])
    (by norm_num) (by norm_num)

lemma rounding_bmr :
    (calculateStats roundingUser DeficitLevel.MODERATE).bmr = 1868 := by
  exact_mod_cast bmr_eval roundingUser DeficitLevel.MODERATE 1867.5 1868
    (by norm_num [rawBmr, roundingUser]) (by norm_num) (by norm_num)

/- Claim theorems. -/

/-- C1: for the male/30y/90kg/175cm sedentary profile, a moderate deficit
gives bmr 1849, tdee 2219 and targetCalories 1775, and an aggressive
deficit with a 10 kg target gives targetCalories 1553 and weeksToGoal 17. -/
theorem scenario_values :
    (calculateStats scenarioUser DeficitLevel.MODERATE).bmr = 1849
  ∧ (calculateStats scenarioUser DeficitLevel.MODERATE).tdee = 2219
  ∧ (calculateStats scenarioUser DeficitLevel.MODERATE).targetCalories = 1775
  ∧ (calculateStats scenarioUser DeficitLevel.AGGRESSIVE).targetCalories = 1553
  ∧ (calculateStats scenarioUser DeficitLevel.AGGRESSIVE).weeksToGoal = 17 :=
  ⟨scenario_bmr _, scenario_tdee _, scenario_target_mod,
    scenario_target_agg, scenario_weeks_agg⟩

/-- C2 counterexample: a profile with positive weight, height and age
(female, 1 kg, 1 cm, age 30) on the light deficit has targetCalories -319
and tdee -354, so targetCalories is NOT strictly less than tdee. -/
theorem target_lt_tdee_fails_degenerate :
    0 < degenUser.weight ∧ 0 < degenUser.height ∧ 0 < degenUser.age ∧
    ¬ ((calculateStats degenUser DeficitLevel.LIGHT).targetCalories
        < (calculateStats degenUser DeficitLevel.LIGHT).tdee) := by
  refine ⟨by norm_num [degenUser], by norm_num [degenUser], by norm_num [degenUser], ?_⟩
  rw [degen_tdee, degen_target]
  norm_num

/-- C2 amended: for every profile and every deficit intensity,
targetCalories = round(tdee * (1 - deficitFraction)); and whenever
tdee ≥ 6 (in particular for all realistic profiles) targetCalories is
strictly less than tdee.  For degenerate profiles with tdee ≤ 5 the
strict inequality can fail. -/
theorem targetCalories_formula_and_strict (u : UserData) (dl : DeficitLevel) :
    (calculateStats u dl).targetCalories
      = ((jsRound ((calculateStats u dl).tdee * (1 - deficitPercentage dl)) : ℤ) : ℚ)
    ∧ (6 ≤ (calculateStats u dl).tdee →
        (calculateStats u dl).targetCalories < (calculateStats u dl).tdee) := by
  refine ⟨calculateStats_targetCalories u dl, fun h6 => ?_⟩
  rw [calculateStats_targetCalories]
  rw [calculateStats_tdee] at h6 ⊢
  set t : ℤ := jsRound (rawBmr u * activityMultiplier u.activityLevel) with htdef
  have h6' : (6 : ℤ) ≤ t := by exact_mod_cast h6
  rw [Int.cast_lt]
  have h6q : (6 : ℚ) ≤ (t : ℚ) := by exact_mod_cast h6'
  unfold jsRound
  rw [Int.floor_lt]
  cases dl <;> simp only [deficitPercentage] <;> linarith

/-- C2 witness: at the scenario profile with moderate deficit, tdee is
2219 ≥ 6 and targetCalories 1775 < 2219. -/
theorem targetCalories_formula_and_strict_witness :
    6 ≤ (calculateStats scenarioUser DeficitLevel.MODERATE).tdee ∧
    (calculateStats scenarioUser DeficitLevel.MODERATE).targetCalories
      < (calculateStats scenarioUser DeficitLevel.MODERATE).tdee :=
  ⟨by rw [scenario_tdee]; norm_num,
    (targetCalories_formula_and_strict scenarioUser DeficitLevel.MODERATE).2
      (by rw [scenario_tdee]; norm_num)⟩

/-- C3 counterexample: at the degenerate profile with light deficit,
weeklyDeficit is -245, the code divides by -245 (JavaScript
`weeklyDeficit || 1`), giving weeksToGoal -314, whereas the claimed
`max(weeklyDeficit, 1)` divisor would give 77000. -/
theorem weeksToGoal_max_guard_fails :
    (calculateStats degenUser DeficitLevel.LIGHT).weeksToGoal
      ≠ ((jsCeil (degenUser.targetWeightLoss * 7700 /
            max (((calculateStats degenUser DeficitLevel.LIGHT).tdee
                  - (calculateStats degenUser DeficitLevel.LIGHT).targetCalories) * 7) 1) : ℤ) : ℚ) := by
  rw [degen_weeks, degen_tdee, degen_target]
  rw [show max ((((-354 : ℚ)) - (-319)) * 7) 1 = 1 from
    max_eq_right (by norm_num)]
  rw [show degenUser.targetWeightLoss * 7700 / 1 = 77000 from by norm_num [degenUser]]
  rw [show jsCeil (77000 : ℚ) = 77000 from by apply jsCeil_eq <;> norm_num]
  norm_num

/-- C3 amended: for every profile with positive targetWeightLoss and every
deficit intensity, weeksToGoal = ceil(targetWeightLoss * 7700 / d) where
the divisor d is weeklyDeficit when weeklyDeficit ≠ 0 and 1 otherwise
(JavaScript `weeklyDeficit || 1`); the divisor is never zero, so the
division-by-zero branch is unreachable, but the divisor can be negative
and is not `max(weeklyDeficit, 1)`. -/
theorem weeksToGoal_formula_positive_loss (u : UserData) (dl : DeficitLevel)
    (hL : 0 < u.targetWeightLoss) :
    (calculateStats u dl).weeksToGoal
      = ((jsCeil (u.targetWeightLoss * 7700 /
          (if ((calculateStats u dl).tdee - (calculateStats u dl).targetCalories) * 7 = 0
           then 1
           else ((calculateStats u dl).tdee - (calculateStats u dl).targetCalories) * 7)) : ℤ) : ℚ)
    ∧ (if ((calculateStats u dl).tdee - (calculateStats u dl).targetCalories) * 7 = 0
       then (1 : ℚ)
       else ((calculateStats u dl).tdee - (calculateStats u dl).targetCalories) * 7) ≠ 0 := by
  constructor
  · rw [calculateStats_weeksToGoal, if_pos hL]
  · split
    · norm_num
    · rename_i hne
      exact hne

/-- C3 witness: the amended formula instantiated at the scenario profile
with the aggressive deficit and a 10 kg goal. -/
theorem weeksToGoal_formula_positive_loss_witness :
    0 < scenarioUser.targetWeightLoss ∧
    ((calculateStats scenarioUser DeficitLevel.AGGRESSIVE).weeksToGoal
      = ((jsCeil (scenarioUser.targetWeightLoss * 7700 /
          (if ((calculateStats scenarioUser DeficitLevel.AGGRESSIVE).tdee
               - (calculateStats scenarioUser DeficitLevel.AGGRESSIVE).targetCalories) * 7 = 0
           then 1
           else ((calculateStats scenarioUser DeficitLevel.AGGRESSIVE).tdee
               - (calculateStats scenarioUser DeficitLevel.AGGRESSIVE).targetCalories) * 7)) : ℤ) : ℚ)
    ∧ (if ((calculateStats scenarioUser DeficitLevel.AGGRESSIVE).tdee
           - (calculateStats scenarioUser DeficitLevel.AGGRESSIVE).targetCalories) * 7 = 0
       then (1 : ℚ)
       else ((calculateStats scenarioUser DeficitLevel.AGGRESSIVE).tdee
           - (calculateStats scenarioUser DeficitLevel.AGGRESSIVE).targetCalories) * 7) ≠ 0) :=
  ⟨by norm_num [scenarioUser],
    weeksToGoal_formula_positive_loss scenarioUser DeficitLevel.AGGRESSIVE
      (by norm_num [scenarioUser])⟩

/-- C4: for every profile with targetWeightLoss = 0 and every deficit
intensity, weeksToGoal = 0. -/
theorem weeksToGoal_zero_loss (u : UserData) (dl : DeficitLevel)
    (h : u.targetWeightLoss = 0) :
    (calculateStats u dl).weeksToGoal = 0 := by
  have hneg : ¬ u.targetWeightLoss > 0 := by rw [h]; norm_num
  rw [calculateStats_weeksToGoal, if_neg hneg]

/-- C4 witness: the scenario profile with target weight loss 0 has
weeksToGoal 0. -/
theorem weeksToGoal_zero_loss_witness :
    zeroLossUser.targetWeightLoss = 0 ∧
    (calculateStats zeroLossUser DeficitLevel.MODERATE).weeksToGoal = 0 :=
  ⟨rfl, weeksToGoal_zero_loss zeroLossUser DeficitLevel.MODERATE rfl⟩

/-- C5: holding all other inputs fixed, the returned bmr is monotonically
increasing in weight, monotonically increasing in height, and
monotonically decreasing in age. -/
theorem bmr_monotone (u : UserData) (dl : DeficitLevel)
    (w1 w2 g1 g2 a1 a2 : ℚ) (hw : w1 ≤ w2) (hg : g1 ≤ g2) (ha : a1 ≤ a2) :
    (calculateStats { u with weight := w1 } dl).bmr
      ≤ (calculateStats { u with weight := w2 } dl).bmr
  ∧ (calculateStats { u with height := g1 } dl).bmr
      ≤ (calculateStats { u with height := g2 } dl).bmr
  ∧ (calculateStats { u with age := a2 } dl).bmr
      ≤ (calculateStats { u with age := a1 } dl).bmr := by
  refine ⟨?_, ?_, ?_⟩ <;>
    (rw [calculateStats_bmr, calculateStats_bmr, Int.cast_le]
     apply jsRound_le
     rw [rawBmr_eq, rawBmr_eq]
     dsimp only
     linarith)

/-- C5 witness: the monotonicity theorem instantiated at the scenario
profile with weights 80 ≤ 90, heights 170 ≤ 175 and ages 25 ≤ 30. -/
theorem bmr_monotone_witness :
    ((80 : ℚ) ≤ 90 ∧ (170 : ℚ) ≤ 175 ∧ (25 : ℚ) ≤ 30) ∧
    ((calculateStats { scenarioUser with weight := 80 } DeficitLevel.MODERATE).bmr
        ≤ (calculateStats { scenarioUser with weight := 90 } DeficitLevel.MODERATE).bmr
    ∧ (calculateStats { scenarioUser with height := 170 } DeficitLevel.MODERATE).bmr
        ≤ (calculateStats { scenarioUser with height := 175 } DeficitLevel.MODERATE).bmr
    ∧ (calculateStats { scenarioUser with age := 30 } DeficitLevel.MODERATE).bmr
        ≤ (calculateStats { scenarioUser with age := 25 } DeficitLevel.MODERATE).bmr) :=
  ⟨⟨by norm_num, by norm_num, by norm_num⟩,
    bmr_monotone scenarioUser DeficitLevel.MODERATE 80 90 170 175 25 30
      (by norm_num) (by norm_num) (by norm_num)⟩

/-- C6 counterexample: a positive profile with unrounded BMR exactly 0
has tdee 0 at both the sedentary and the lightly active tier, so tdee is
NOT strictly increasing in the activity tier for every profile. -/
theorem tdee_not_strict_zero_bmr :
    activityRank zeroBmrUser.activityLevel
      < activityRank ActivityLevel.LIGHTLY_ACTIVE ∧
    ¬ ((calculateStats zeroBmrUser DeficitLevel.MODERATE).tdee
        < (calculateStats { zeroBmrUser with activityLevel := ActivityLevel.LIGHTLY_ACTIVE }
            DeficitLevel.MODERATE).tdee) := by
  constructor
  · norm_num [activityRank, zeroBmrUser]
  · rw [zeroBmr_tdee_sed, zeroBmr_tdee_light]
    norm_num

/-- C6 amended: for two profiles with the same age, weight, height and
gender, whose unrounded BMR is at least 6, the tdee is strictly
increasing in the activity tier; for BMR at or below 0 the strict
increase can fail. -/
theorem tdee_strict_in_tier (u1 u2 : UserData) (dl : DeficitLevel)
    (hage : u1.age = u2.age) (hw : u1.weight = u2.weight)
    (hh : u1.height = u2.height) (hg : u1.gender = u2.gender)
    (hrank : activityRank u1.activityLevel < activityRank u2.activityLevel)
    (h6 : 6 ≤ rawBmr u1) :
    (calculateStats u1 dl).tdee < (calculateStats u2 dl).tdee := by
  rw [calculateStats_tdee, calculateStats_tdee, Int.cast_lt]
  apply jsRound_lt
  have hb : rawBmr u2 = rawBmr u1 := by
    rw [rawBmr_eq, rawBmr_eq, hage, hw, hh, hg]
  rw [hb]
  have hgap : activityMultiplier u1.activityLevel + 7 / 40
      ≤ activityMultiplier u2.activityLevel := by
    cases hu1 : u1.activityLevel <;> cases hu2 : u2.activityLevel <;>
      rw [hu1, hu2] at hrank <;>
      simp only [activityRank] at hrank <;>
      first
        | omega
        | norm_num [activityMultiplier]
  have hmul : rawBmr u1 * (activityMultiplier u1.activityLevel + 7 / 40)
      ≤ rawBmr u1 * activityMultiplier u2.activityLevel :=
    mul_le_mul_of_nonneg_left hgap (by linarith)
  nlinarith [hmul, h6]

/-- C6 witness: the scenario profile (BMR 1848.75 ≥ 6) at the sedentary
tier has strictly smaller tdee than at the very active tier. -/
theorem tdee_strict_in_tier_witness :
    activityRank scenarioUser.activityLevel
      < activityRank ({ scenarioUser with
          activityLevel := ActivityLevel.VERY_ACTIVE } : UserData).activityLevel ∧
    6 ≤ rawBmr scenarioUser ∧
    (calculateStats scenarioUser DeficitLevel.MODERATE).tdee
      < (calculateStats { scenarioUser with activityLevel := ActivityLevel.VERY_ACTIVE }
          DeficitLevel.MODERATE).tdee :=
  ⟨by norm_num [activityRank, scenarioUser],
    by norm_num [rawBmr, scenarioUser],
    tdee_strict_in_tier scenarioUser _ DeficitLevel.MODERATE rfl rfl rfl rfl
      (by norm_num [activityRank, scenarioUser])
      (by norm_num [rawBmr, scenarioUser])⟩

/-- C7: calculateStats is a pure function of its two arguments: identical
inputs give identical outputs. -/
theorem calculateStats_deterministic (u1 u2 : UserData) (d1 d2 : DeficitLevel)
    (hu : u1 = u2) (hd : d1 = d2) :
    calculateStats u1 d1 = calculateStats u2 d2 := by
  rw [hu, hd]

/-- C7 witness: two invocations at the scenario profile agree. -/
theorem calculateStats_deterministic_witness :
    calculateStats scenarioUser DeficitLevel.MODERATE
      = calculateStats scenarioUser DeficitLevel.MODERATE :=
  calculateStats_deterministic scenarioUser scenarioUser
    DeficitLevel.MODERATE DeficitLevel.MODERATE rfl rfl

/-- C8 counterexample: the degenerate profile has positive weight, height
and (integer) age, yet weeksToGoal is -314 < 0 on the light deficit,
because the weekly deficit is negative there. -/
theorem weeksToGoal_negative_counterexample :
    0 < degenUser.weight ∧ 0 < degenUser.height ∧ 0 < degenUser.age ∧
    (calculateStats degenUser DeficitLevel.LIGHT).weeksToGoal < 0 := by
  refine ⟨by norm_num [degenUser], by norm_num [degenUser], by norm_num [degenUser], ?_⟩
  rw [degen_weeks]
  norm_num

/-- C8 amended: all four output fields are integers for every profile and
deficit intensity; weeksToGoal is non-negative whenever
targetCalories ≤ tdee (which holds for realistic profiles but can fail
for degenerate ones with negative tdee). -/
theorem stats_integer_fields (u : UserData) (dl : DeficitLevel)
    (hw : 0 < u.weight) (hhgt : 0 < u.height) (ha : 0 < u.age) :
    (∃ n : ℤ, (calculateStats u dl).bmr = n) ∧
    (∃ n : ℤ, (calculateStats u dl).tdee = n) ∧
    (∃ n : ℤ, (calculateStats u dl).targetCalories = n) ∧
    (∃ n : ℤ, (calculateStats u dl).weeksToGoal = n) ∧
    ((calculateStats u dl).targetCalories ≤ (calculateStats u dl).tdee →
      0 ≤ (calculateStats u dl).weeksToGoal) := by
  refine ⟨⟨_, calculateStats_bmr u dl⟩, ⟨_, calculateStats_tdee u dl⟩,
    ⟨_, calculateStats_targetCalories u dl⟩, ?_, ?_⟩
  · by_cases hL : u.targetWeightLoss > 0
    · exact ⟨_, by rw [calculateStats_weeksToGoal, if_pos hL]⟩
    · exact ⟨0, by rw [calculateStats_weeksToGoal, if_neg hL]; norm_num⟩
  · intro hle
    by_cases hL : u.targetWeightLoss > 0
    · rw [calculateStats_weeksToGoal, if_pos hL]
      set wd : ℚ :=
        ((calculateStats u dl).tdee - (calculateStats u dl).targetCalories) * 7 with hwddef
      have hwdnn : 0 ≤ wd := by
        rw [hwddef]
        have : 0 ≤ (calculateStats u dl).tdee - (calculateStats u dl).targetCalories := by
          linarith
        linarith
      have hdv : (0 : ℚ) < (if wd = 0 then 1 else wd) := by
        split
        · norm_num
        · rename_i hne
          exact lt_of_le_of_ne hwdnn (Ne.symm hne)
      have hq : (0 : ℚ) ≤ u.targetWeightLoss * 7700 / (if wd = 0 then 1 else wd) :=
        le_of_lt (div_pos (by positivity) hdv)
      have hz : (0 : ℤ) ≤ jsCeil (u.targetWeightLoss * 7700 / (if wd = 0 then 1 else wd)) := by
        unfold jsCeil
        exact Int.ceil_nonneg hq
      exact_mod_cast hz
    · rw [calculateStats_weeksToGoal, if_neg hL]

/-- C8 witness: the integer-fields theorem instantiated at the scenario
profile with the moderate deficit. -/
theorem stats_integer_fields_witness :
    (0 < scenarioUser.weight ∧ 0 < scenarioUser.height ∧ 0 < scenarioUser.age) ∧
    ((∃ n : ℤ, (calculateStats scenarioUser DeficitLevel.MODERATE).bmr = n) ∧
     (∃ n : ℤ, (calculateStats scenarioUser DeficitLevel.MODERATE).tdee = n) ∧
     (∃ n : ℤ, (calculateStats scenarioUser DeficitLevel.MODERATE).targetCalories = n) ∧
     (∃ n : ℤ, (calculateStats scenarioUser DeficitLevel.MODERATE).weeksToGoal = n) ∧
     ((calculateStats scenarioUser DeficitLevel.MODERATE).targetCalories
        ≤ (calculateStats scenarioUser DeficitLevel.MODERATE).tdee →
       0 ≤ (calculateStats scenarioUser DeficitLevel.MODERATE).weeksToGoal)) :=
  ⟨⟨by norm_num [scenarioUser], by norm_num [scenarioUser], by norm_num [scenarioUser]⟩,
    stats_integer_fields scenarioUser DeficitLevel.MODERATE
      (by norm_num [scenarioUser]) (by norm_num [scenarioUser]) (by norm_num [scenarioUser])⟩

/-- C9 counterexample: for the male/30y/90kg/178cm sedentary profile the
unrounded BMR is 1867.5; the code computes tdee = round(1867.5 * 1.2) =
2241, while round(bmrField * 1.2) = round(1868 * 1.2) = 2242, so tdee is
NOT computed from the already-rounded bmr field. -/
theorem tdee_not_from_rounded_bmr :
    (calculateStats roundingUser DeficitLevel.MODERATE).tdee
      ≠ ((jsRound ((calculateStats roundingUser DeficitLevel.MODERATE).bmr
            * activityMultiplier roundingUser.activityLevel) : ℤ) : ℚ) := by
  rw [rounding_tdee, rounding_bmr]
  rw [show jsRound ((1868 : ℚ) * activityMultiplier roundingUser.activityLevel) = 2242 from
    by apply jsRound_eq <;> norm_num [activityMultiplier, roundingUser]]
  norm_num

/-- C9 amended: tdee = round(unroundedBmr * activityMultiplier) for every
profile and deficit intensity; in scenario 1 the two readings coincide,
and tdee there is 2219. -/
theorem tdee_unrounded_formula :
    (∀ (u : UserData) (dl : DeficitLevel),
      (calculateStats u dl).tdee
        = ((jsRound (rawBmr u * activityMultiplier u.activityLevel) : ℤ) : ℚ))
    ∧ (calculateStats scenarioUser DeficitLevel.MODERATE).tdee = 2219 :=
  ⟨calculateStats_tdee, scenario_tdee _⟩

/-- C10: for every profile with strictly negative targetWeightLoss the
calculator still returns weeksToGoal = 0, and the bmr, tdee and
targetCalories fields do not depend on targetWeightLoss at all. -/
theorem negative_loss_weeks_zero (u : UserData) (dl : DeficitLevel)
    (hL : u.targetWeightLoss < 0) :
    (calculateStats u dl).weeksToGoal = 0 ∧
    ∀ L : ℚ,
      (calculateStats { u with targetWeightLoss := L } dl).bmr
        = (calculateStats u dl).bmr ∧
      (calculateStats { u with targetWeightLoss := L } dl).tdee
        = (calculateStats u dl).tdee ∧
      (calculateStats { u with targetWeightLoss := L } dl).targetCalories
        = (calculateStats u dl).targetCalories := by
  constructor
  · have hneg : ¬ u.targetWeightLoss > 0 := by linarith
    rw [calculateStats_weeksToGoal, if_neg hneg]
  · intro L
    exact ⟨rfl, rfl, rfl⟩

/-- C10 witness: the scenario profile with target weight loss -5 has
weeksToGoal 0, and replacing the target by 7 leaves bmr unchanged. -/
theorem negative_loss_weeks_zero_witness :
    negLossUser.targetWeightLoss < 0 ∧
    (calculateStats negLossUser DeficitLevel.MODERATE).weeksToGoal = 0 ∧
    (calculateStats { negLossUser with targetWeightLoss := 7 } DeficitLevel.MODERATE).bmr
      = (calculateStats negLossUser DeficitLevel.MODERATE).bmr :=
  ⟨by norm_num [negLossUser, scenarioUser],
    (negative_loss_weeks_zero negLossUser DeficitLevel.MODERATE
      (by norm_num [negLossUser, scenarioUser])).1,
    ((negative_loss_weeks_zero negLossUser DeficitLevel.MODERATE
      (by norm_num [negLossUser, scenarioUser])).2 7).1⟩
